import Mathlib

/-!
Verification of the core of a whitted-style ray tracer (Rust sources:
`src/raytracer/config/shape.rs`, `src/raytracer/raytracer.rs`,
`src/raytracer/config/config_builder.rs`, `src/imgcomparator/mod.rs`)
against its natural-language specification.

Modelling conventions:
* `f32` scalars are idealised as exact rationals (`ℚ`).  The transcendental
  floating-point operations the code uses (`sqrt`, `powf`, `tan`, and the
  constant `std::f32::consts::PI`) are not rational-valued, so they are
  abstracted into a record `FloatFns` of uninterpreted functions that is
  passed through the model; every theorem quantifies over it, and concrete
  instantiations are used for witnesses.
* The BVH comes from the external `bvh` crate (a collaborator, not part of
  the repository's sources).  Its traversal is abstracted as a function
  `tr : Ray → List Shape` producing the candidate set; the theorems hold
  for every such function.
* `rayon`'s `par_chunks_mut` row-parallel loop writes disjoint row slices of
  the output buffer, one writer per row, so it is modelled as the
  deterministic concatenation of the rows.
-/

namespace RT

/-- Uninterpreted floating-point library functions (see module docstring). -/
structure FloatFns where
  sqrt : ℚ → ℚ
  powf : ℚ → ℚ → ℚ
  tan : ℚ → ℚ
  pi : ℚ

/-- Triple of scalars, modelling `glam::Vec3` / `nalgebra::Vector3<f32>`. -/
structure Vec3 where
  x : ℚ
  y : ℚ
  z : ℚ
deriving DecidableEq, Repr

instance : Add Vec3 := ⟨fun a b => ⟨a.x + b.x, a.y + b.y, a.z + b.z⟩⟩

instance : Sub Vec3 := ⟨fun a b => ⟨a.x - b.x, a.y - b.y, a.z - b.z⟩⟩

instance : Neg Vec3 := ⟨fun a => ⟨-a.x, -a.y, -a.z⟩⟩

instance : Zero Vec3 := ⟨⟨0, 0, 0⟩⟩

instance : SMul ℚ Vec3 := ⟨fun q v => ⟨q * v.x, q * v.y, q * v.z⟩⟩

/-- Dot product. -/
def dot (a b : Vec3) : ℚ := a.x * b.x + a.y * b.y + a.z * b.z

/-- Cross product. -/
def cross (a b : Vec3) : Vec3 :=
  ⟨a.y * b.z - a.z * b.y, a.z * b.x - a.x * b.z, a.x * b.y - a.y * b.x⟩

/-- Componentwise product, modelling `component_mul`. -/
def compmul (a b : Vec3) : Vec3 := ⟨a.x * b.x, a.y * b.y, a.z * b.z⟩

/-- Euclidean length `v.norm()` / `v.length()`, via the abstracted `sqrt`. -/
def vlen (F : FloatFns) (v : Vec3) : ℚ := F.sqrt (dot v v)

/-- Unit-length rescaling `v.normalize()`, via the abstracted `sqrt`. -/
def normalize (F : FloatFns) (v : Vec3) : Vec3 := (1 / vlen F v) • v

/-- A ray, as in `shape.rs`. -/
structure Ray where
  origin : Vec3
  direction : Vec3
deriving DecidableEq

/-- Hit record, as in `shape.rs`. -/
structure Intersection where
  distance : ℚ
  normal : Vec3
  point : Vec3
  diffuse_color : Vec3
  specular_color : Vec3
  shininess : ℚ
  is_back_face : Bool
deriving DecidableEq, Repr

/-- The tagged primitive variant `Shape` of `shape.rs`. -/
inductive Shape where
  | Sphere (center : Vec3) (radius : ℚ) (diffuse_color specular_color : Vec3)
      (shininess : ℚ) (node_index : ℕ)
  | Triangle (v0 v1 v2 : Vec3) (diffuse_color specular_color : Vec3)
      (shininess : ℚ) (node_index : ℕ)
  | Plane (point normal : Vec3) (diffuse_color specular_color : Vec3)
      (shininess : ℚ) (node_index : ℕ)
deriving DecidableEq, Repr

/-- Sphere intersection, from `intersect_sphere` in `shape.rs`. -/
def intersect_sphere (F : FloatFns) (ray : Ray) (sphere : Shape) : Option Intersection :=
  match sphere with
  | .Sphere center radius diffuse_color specular_color shininess _ =>
    let oc := ray.origin - center
    let half_b := dot oc ray.direction
    let c := dot oc oc - radius * radius
    let discriminant := half_b * half_b - c
    if discriminant < 0 then none
    else
      let t := -half_b - F.sqrt discriminant
      if t < 0 then none
      else
        let point := ray.origin + t • ray.direction
        let normal := normalize F (point - center)
        some ⟨t, normal, point, diffuse_color, specular_color, shininess, false⟩
  | _ => none

/-- Plane intersection, from `intersect_plane` in `shape.rs`.  Note that the
source sets `is_back_face: false` unconditionally. -/
def intersect_plane (ray : Ray) (plane : Shape) : Option Intersection :=
  match plane with
  | .Plane point normal diffuse_color specular_color shininess _ =>
    let denom := dot normal ray.direction
    if abs denom < 1 / 1000000 then none
    else
      let t := dot (point - ray.origin) normal / denom
      if t < 0 then none
      else
        let intersection_point := ray.origin + t • ray.direction
        some ⟨t, normal, intersection_point, diffuse_color, specular_color, shininess, false⟩
  | _ => none

/-- Möller–Trumbore triangle intersection, from `intersect_triangle` in `shape.rs`. -/
def intersect_triangle (F : FloatFns) (ray : Ray) (triangle : Shape) : Option Intersection :=
  match triangle with
  | .Triangle v0 v1 v2 diffuse_color specular_color shininess _ =>
    let edge1 := v1 - v0
    let edge2 := v2 - v0
    let h := cross ray.direction edge2
    let a := dot edge1 h
    if abs a < 1 / 1000000 then none
    else
      let f := 1 / a
      let s := ray.origin - v0
      let u := f * dot s h
      if u < 0 ∨ u > 1 then none
      else
        let q := cross s edge1
        let v := f * dot ray.direction q
        if v < 0 ∨ u + v > 1 then none
        else
          let t := f * dot edge2 q
          if t < 0 then none
          else
            let intersection_point := ray.origin + t • ray.direction
            let normal := normalize F (cross edge1 edge2)
            let is_back_face := decide (0 < dot normal ray.direction)
            some ⟨t, normal, intersection_point, diffuse_color, specular_color, shininess,
              is_back_face⟩
  | _ => none

/-- Variant dispatch `Shape::intersect` of `shape.rs`. -/
def Shape.intersect (F : FloatFns) (s : Shape) (ray : Ray) : Option Intersection :=
  match s with
  | .Sphere .. => intersect_sphere F ray s
  | .Plane .. => intersect_plane ray s
  | .Triangle .. => intersect_triangle F ray s

/-- Concrete instantiation of the abstract float functions used for witnesses
and counterexamples; the witness inputs are chosen so that none of these
functions influences the checked fact. -/
def F0 : FloatFns := ⟨fun q => q, fun q _ => q, fun q => q, 3⟩

@[simp] theorem vadd_def (a b : Vec3) : a + b = ⟨a.x + b.x, a.y + b.y, a.z + b.z⟩ := rfl

@[simp] theorem vsub_def (a b : Vec3) : a - b = ⟨a.x - b.x, a.y - b.y, a.z - b.z⟩ := rfl

@[simp] theorem vneg_def (a : Vec3) : -a = ⟨-a.x, -a.y, -a.z⟩ := rfl

@[simp] theorem vsmul_def (q : ℚ) (v : Vec3) : q • v = ⟨q * v.x, q * v.y, q * v.z⟩ := rfl

@[simp] theorem vzero_def : (0 : Vec3) = ⟨0, 0, 0⟩ := rfl

/-- A concrete plane (through the origin, unit normal along z) used in
witnesses and counterexamples. -/
def pl0 : Shape := .Plane ⟨0, 0, 0⟩ ⟨0, 0, 1⟩ ⟨0, 0, 0⟩ ⟨0, 0, 0⟩ 0 0

/-- A ray from (0,0,-1) towards +z: it hits `pl0` front-on at the origin with
`denom = normal · direction = 1 > 0`. -/
def r0 : Ray := ⟨⟨0, 0, -1⟩, ⟨0, 0, 1⟩⟩

/-- The intersection record `Shape::intersect` produces for `r0` against `pl0`. -/
def i0 : Intersection := ⟨1, ⟨0, 0, 1⟩, ⟨0, 0, 0⟩, ⟨0, 0, 0⟩, ⟨0, 0, 0⟩, 0, false⟩

/-- A ray starting exactly on `pl0` and leaving it: the code accepts the
parametric distance `t = 0`. -/
def rOn : Ray := ⟨⟨0, 0, 0⟩, ⟨0, 0, 1⟩⟩

/-- C1 counterexample: for the plane `pl0` and the ray `r0`, the stored normal
and the ray direction satisfy `normal · direction = 1 > 0`, yet the
intersection returned by `Shape::intersect` has `is_back_face = false`, so
`is_back_face = (normal · ray.direction > 0)` fails at this input. -/
theorem c1_plane_back_face_counterexample :
    (Shape.intersect F0 pl0 r0).map Intersection.is_back_face = some false ∧
      0 < dot ⟨0, 0, 1⟩ r0.direction := by
  constructor
  · norm_num [Shape.intersect, intersect_plane, pl0, r0, dot]
  · norm_num [r0, dot]

/-- C1 (amended): for every plane primitive and every ray, when
`Shape::intersect` returns an intersection its `is_back_face` field is
`false` — `intersect_plane` never sets it from the sign of `denom`. -/
theorem c1_plane_back_face_always_false (F : FloatFns) (p n d sp : Vec3) (sh : ℚ) (ni : ℕ)
    (r : Ray) (I : Intersection)
    (h : Shape.intersect F (Shape.Plane p n d sp sh ni) r = some I) :
    I.is_back_face = false := by
  simp only [Shape.intersect, intersect_plane] at h
  split_ifs at h with h1 h2
  rw [Option.some_inj] at h
  subst h
  rfl

/-- C1 witness: the amended theorem applied to the concrete plane `pl0` and
ray `r0`. -/
theorem c1_plane_back_face_always_false_witness :
    Shape.intersect F0 pl0 (Ray.mk ⟨0, 0, -1⟩ ⟨0, 0, 1⟩) = some i0 ∧
      Intersection.is_back_face i0 = false := by
  have h : Shape.intersect F0 pl0 (Ray.mk ⟨0, 0, -1⟩ ⟨0, 0, 1⟩) = some i0 := by
    norm_num [Shape.intersect, intersect_plane, pl0, i0, dot]
  exact ⟨h, c1_plane_back_face_always_false F0 ⟨0, 0, 0⟩ ⟨0, 0, 1⟩ ⟨0, 0, 0⟩ ⟨0, 0, 0⟩ 0 0
    (Ray.mk ⟨0, 0, -1⟩ ⟨0, 0, 1⟩) i0 h⟩

/-- C2 counterexample: the ray `rOn` starts exactly on the plane `pl0` (with
`denom = 1`, so not parallel); the code only rejects `t < 0` and therefore
returns a hit with `distance = 0`, refuting the claimed strict positivity
`I.distance > 0`. -/
theorem c2_distance_zero_counterexample :
    (Shape.intersect F0 pl0 rOn).map Intersection.distance = some 0 := by
  norm_num [Shape.intersect, intersect_plane, pl0, rOn, dot]

/-- C2 (amended): for every primitive (sphere, plane or triangle) and every
ray, if `Shape::intersect` returns an intersection `I` then `I.distance ≥ 0`
(zero is accepted: the code only rejects `t < 0`) and `I.point` equals
`ray.origin + I.distance · ray.direction` exactly. -/
theorem c2_intersect_distance_nonneg_point_eq (F : FloatFns) (s : Shape) (r : Ray)
    (I : Intersection) (h : Shape.intersect F s r = some I) :
    0 ≤ I.distance ∧ I.point = r.origin + I.distance • r.direction := by
  cases s with
  | Sphere center radius dc sc sh ni =>
    simp only [Shape.intersect, intersect_sphere] at h
    split_ifs at h with h1 h2
    rw [Option.some_inj] at h
    subst h
    exact ⟨le_of_not_lt h2, rfl⟩
  | Plane p n dc sc sh ni =>
    simp only [Shape.intersect, intersect_plane] at h
    split_ifs at h with h1 h2
    rw [Option.some_inj] at h
    subst h
    exact ⟨le_of_not_lt h2, rfl⟩
  | Triangle v0 v1 v2 dc sc sh ni =>
    simp only [Shape.intersect, intersect_triangle] at h
    split_ifs at h with h1 h2 h3 h4
    rw [Option.some_inj] at h
    subst h
    exact ⟨le_of_not_lt h4, rfl⟩

/-- C2 witness: the amended theorem applied to the concrete plane hit
`pl0`/`r0`, whose distance is `1 ≥ 0` and whose point is the ray origin plus
distance times direction. -/
theorem c2_intersect_distance_nonneg_point_eq_witness :
    Shape.intersect F0 pl0 r0 = some i0 ∧
      0 ≤ i0.distance ∧ i0.point = r0.origin + i0.distance • r0.direction := by
  have h : Shape.intersect F0 pl0 r0 = some i0 := by
    norm_num [Shape.intersect, intersect_plane, pl0, r0, i0, dot]
  exact ⟨h, c2_intersect_distance_nonneg_point_eq F0 pl0 r0 i0 h⟩

/-- The tagged light variant used by `config_builder.rs` and `raytracer.rs`
(its `enum` declaration is not among the checked-in sources; fields and
variants are reconstructed from every use site and from the spec). -/
inductive Light where
  | Point (position : Vec3) (color : Vec3)
  | Directional (direction : Vec3) (color : Vec3)
deriving DecidableEq, Repr

/-- Accessor `light.color()` used by the shader. -/
def Light.color : Light → Vec3
  | .Point _ c => c
  | .Directional _ c => c

/-- Camera record from `camera.rs` / `config_builder.rs`. -/
structure Camera where
  position : Vec3
  look_at : Vec3
  up : Vec3
  fov : ℚ
deriving DecidableEq, Repr

/-- Scene configuration from `config_builder.rs`. -/
structure Config where
  width : ℕ
  height : ℕ
  output_file : String
  camera : Camera
  ambient : Vec3
  maxdepth : ℕ
  maxverts : ℕ
  scene_objects : List Shape
  lights : List Light
deriving DecidableEq, Repr

/-- Candidate-set producer abstracting `self.bvh.traverse(&bvh_ray, objects)`
from the external `bvh` crate (see module docstring). -/
abbrev Traverse := Ray → List Shape

/-- Closest positive hit among the BVH candidates, from the
`filter_map(intersect).min_by(distance)` pipeline in `find_color_recursive`
(Rust `Iterator::min_by` keeps the first of equally minimal elements). -/
def closest_intersection (F : FloatFns) (candidates : List Shape) (ray : Ray) :
    Option Intersection :=
  (candidates.filterMap (fun object => object.intersect F ray)).foldl
    (fun acc x =>
      match acc with
      | none => some x
      | some a => if x.distance < a.distance then some x else some a) none

/-- Shadow direction `light_dir` computed per light in `find_color_recursive`. -/
def light_dir_of (F : FloatFns) (inter : Intersection) (light : Light) : Vec3 :=
  match light with
  | .Point position _ => normalize F (position - inter.point)
  | .Directional direction _ => direction

/-- The shadow test of `find_color_recursive` (raytracer.rs lines 126-159):
casts the shadow ray from `point + normal * 1e-6` along `light_dir` and asks
whether any candidate intersection blocks the light. -/
def shadow_check (F : FloatFns) (tr : Traverse) (inter : Intersection) (light : Light) : Bool :=
  let light_dir := light_dir_of F inter light
  let shadow_ray : Ray := ⟨inter.point + (1 / 1000000 : ℚ) • inter.normal, light_dir⟩
  let shadow_candidates := tr shadow_ray
  (shadow_candidates.filterMap (fun object => object.intersect F shadow_ray)).any
    (fun shadow_intersection =>
      if shadow_intersection.distance < 1 / 1000000 then false
      else if inter.is_back_face && shadow_intersection.is_back_face then false
      else
        match light with
        | .Point position _ =>
          decide (shadow_intersection.distance < vlen F (position - inter.point))
        | .Directional _ _ => true)

/-- The blinn-phong contribution of one unshadowed light, from the
`if !in_shadow` block of `find_color_recursive` (raytracer.rs lines 160-178). -/
def light_contribution (F : FloatFns) (inter : Intersection) (direction : Vec3)
    (light : Light) : Vec3 :=
  let light_dir := light_dir_of F inter light
  let light_color := light.color
  let n_dot_l := max (dot inter.normal light_dir) 0
  let diffuse := n_dot_l • inter.diffuse_color
  let view_dir := -direction
  let half_vector := normalize F (light_dir + view_dir)
  let n_dot_h := max (dot inter.normal half_vector) 0
  let specular_factor :=
    if inter.shininess = 1 then n_dot_h
    else if inter.shininess = 0 then (if 0 < n_dot_l then n_dot_h else 0)
    else (if 0 < n_dot_l then F.powf n_dot_h inter.shininess else 0)
  let specular := specular_factor • inter.specular_color
  compmul (diffuse + specular) light_color

/-- The light accumulation loop of `find_color_recursive`: a light whose
shadow test reports a blocker contributes nothing, any other light adds its
blinn-phong contribution. -/
def direct_lighting (F : FloatFns) (tr : Traverse) (cfg : Config) (inter : Intersection)
    (direction : Vec3) : Vec3 :=
  cfg.lights.foldl
    (fun acc light =>
      if shadow_check F tr inter light then acc
      else acc + light_contribution F inter direction light) 0

/-- The recursive shader `find_color_recursive` of `raytracer.rs`: depth
guard, closest hit via BVH candidates, light accumulation plus ambient, and
a recursive reflection ray when the hit is reflective and `depth + 1 <
maxdepth`. -/
def find_color_recursive (F : FloatFns) (tr : Traverse) (cfg : Config)
    (origin direction : Vec3) (depth : ℕ) : Vec3 :=
  if cfg.maxdepth < depth then 0
  else
    let ray : Ray := ⟨origin, direction⟩
    let candidates := tr ray
    match closest_intersection F candidates ray with
    | none => 0
    | some intersection =>
      let light_accumulator := direct_lighting F tr cfg intersection direction
      let final_color := light_accumulator + cfg.ambient
      if h : (0 < intersection.specular_color.x ∨ 0 < intersection.specular_color.y ∨
          0 < intersection.specular_color.z) ∧ depth + 1 < cfg.maxdepth then
        final_color +
          compmul intersection.specular_color
            (find_color_recursive F tr cfg
              (intersection.point + (1 / 1000000 : ℚ) • intersection.normal)
              (direction - (2 * dot direction intersection.normal) • intersection.normal)
              (depth + 1))
      else final_color
termination_by cfg.maxdepth - depth
decreasing_by
  have := h.2
  omega

/-- C3: for every hit `I` at recursion depth `depth ≤ maxdepth` whose
specular color has a positive channel, the shader result contains the
reflection term exactly when `depth + 1 < maxdepth`: the reflection ray
starts at `I.point + I.normal · 1e-6`, has direction
`dir − 2 (dir · I.normal) I.normal`, and contributes
`I.specular ⊙ trace(..., depth + 1)`; in particular no reflection ray is
cast when `maxdepth = 1`. -/
theorem c3_reflection_gate (F : FloatFns) (tr : Traverse) (cfg : Config)
    (origin direction : Vec3) (depth : ℕ) (I : Intersection)
    (hdepth : depth ≤ cfg.maxdepth)
    (hI : closest_intersection F (tr ⟨origin, direction⟩) ⟨origin, direction⟩ = some I)
    (hspec : 0 < I.specular_color.x ∨ 0 < I.specular_color.y ∨ 0 < I.specular_color.z) :
    (find_color_recursive F tr cfg origin direction depth =
      if depth + 1 < cfg.maxdepth then
        (direct_lighting F tr cfg I direction + cfg.ambient) +
          compmul I.specular_color
            (find_color_recursive F tr cfg (I.point + (1 / 1000000 : ℚ) • I.normal)
              (direction - (2 * dot direction I.normal) • I.normal) (depth + 1))
      else direct_lighting F tr cfg I direction + cfg.ambient) ∧
    (cfg.maxdepth = 1 →
      find_color_recursive F tr cfg origin direction depth =
        direct_lighting F tr cfg I direction + cfg.ambient) := by
  have hmain : find_color_recursive F tr cfg origin direction depth =
      if depth + 1 < cfg.maxdepth then
        (direct_lighting F tr cfg I direction + cfg.ambient) +
          compmul I.specular_color
            (find_color_recursive F tr cfg (I.point + (1 / 1000000 : ℚ) • I.normal)
              (direction - (2 * dot direction I.normal) • I.normal) (depth + 1))
      else direct_lighting F tr cfg I direction + cfg.ambient := by
    rw [find_color_recursive]
    rw [if_neg (by omega)]
    simp only [hI]
    by_cases hd : depth + 1 < cfg.maxdepth
    · rw [dif_pos ⟨hspec, hd⟩, if_pos hd]
    · rw [dif_neg (fun hc => hd hc.2), if_neg hd]
  refine ⟨hmain, fun h1 => ?_⟩
  rw [hmain, if_neg (by omega)]

/-- A plane with a reflective material (specular x-channel 1), used as the
scene object of the C3 witness. -/
def plR : Shape := .Plane ⟨0, 0, 0⟩ ⟨0, 0, 1⟩ ⟨0, 0, 0⟩ ⟨1, 0, 0⟩ 0 0

/-- Default camera of `load_config_file`. -/
def cam0 : Camera := ⟨⟨0, 0, 0⟩, ⟨0, 0, 1⟩, ⟨0, 1, 0⟩, 60⟩

/-- Tiny scene for the C3 witness: one reflective plane, no lights,
`maxdepth = 3`. -/
def cfgR : Config := ⟨1, 1, "output.png", cam0, ⟨0, 0, 0⟩, 3, 0, [plR], []⟩

/-- Candidate producer always returning the single scene object `plR`. -/
def trR : Traverse := fun _ => [plR]

/-- The hit `r0` produces on `plR`. -/
def iR : Intersection := ⟨1, ⟨0, 0, 1⟩, ⟨0, 0, 0⟩, ⟨0, 0, 0⟩, ⟨1, 0, 0⟩, 0, false⟩

/-- C3 witness: the theorem applied at depth 0 in the concrete one-plane
scene `cfgR`. -/
theorem c3_reflection_gate_witness :
    (0 ≤ cfgR.maxdepth ∧
      closest_intersection F0 (trR ⟨r0.origin, r0.direction⟩) ⟨r0.origin, r0.direction⟩ =
        some iR ∧
      (0 < iR.specular_color.x ∨ 0 < iR.specular_color.y ∨ 0 < iR.specular_color.z)) ∧
    (find_color_recursive F0 trR cfgR r0.origin r0.direction 0 =
      if 0 + 1 < cfgR.maxdepth then
        (direct_lighting F0 trR cfgR iR r0.direction + cfgR.ambient) +
          compmul iR.specular_color
            (find_color_recursive F0 trR cfgR (iR.point + (1 / 1000000 : ℚ) • iR.normal)
              (r0.direction - (2 * dot r0.direction iR.normal) • iR.normal) (0 + 1))
      else direct_lighting F0 trR cfgR iR r0.direction + cfgR.ambient) := by
  have hdepth : 0 ≤ cfgR.maxdepth := by omega
  have hI : closest_intersection F0 (trR ⟨r0.origin, r0.direction⟩) ⟨r0.origin, r0.direction⟩ =
      some iR := by
    norm_num [closest_intersection, trR, Shape.intersect, intersect_plane, plR, r0, iR, dot,
      List.filterMap, List.foldl]
  have hspec : 0 < iR.specular_color.x ∨ 0 < iR.specular_color.y ∨ 0 < iR.specular_color.z := by
    left; norm_num [iR]
  exact ⟨⟨hdepth, hI, hspec⟩,
    (c3_reflection_gate F0 trR cfgR r0.origin r0.direction 0 iR hdepth hI hspec).1⟩

/-- Specular factor as the specification words it (three-case piecewise
rule); this is the spec-side definition that C4 compares against the code. -/
def spec_specular_factor (F : FloatFns) (shininess n_dot_l n_dot_h : ℚ) : ℚ :=
  if shininess = 1 then n_dot_h
  else if shininess = 0 then (if 0 < n_dot_l then n_dot_h else 0)
  else (if 0 < n_dot_l then F.powf n_dot_h shininess else 0)

/-- C4: for every hit and light, the unshadowed direct contribution is
`(diffuse · (n·l) + specular_factor · specular) ⊙ light.color` with
`n·l = max(0, normal·s)`, `n·h = max(0, normal·half)` and the specular
factor given by the three-case piecewise rule of the specification. -/
theorem c4_specular_piecewise (F : FloatFns) (inter : Intersection) (direction : Vec3)
    (light : Light) :
    light_contribution F inter direction light =
      compmul
        ((max (dot inter.normal (light_dir_of F inter light)) 0) • inter.diffuse_color +
          spec_specular_factor F inter.shininess
              (max (dot inter.normal (light_dir_of F inter light)) 0)
              (max (dot inter.normal (normalize F (light_dir_of F inter light + -direction)))
                0) •
            inter.specular_color)
        light.color := rfl

/-- C5: the shader skips a light's direct contribution exactly when some
candidate intersection `S` of the shadow ray (origin `point + normal·1e-6`,
direction `s`) satisfies `S.distance ≥ 1e-6`, not both the hit and `S` are
back faces, and — for point lights — `S.distance < |position − point|`
(directional lights are blocked by any surviving candidate). -/
theorem c5_shadow_blocker_characterization (F : FloatFns) (tr : Traverse)
    (inter : Intersection) (light : Light) :
    shadow_check F tr inter light = true ↔
      ∃ object ∈ tr ⟨inter.point + (1 / 1000000 : ℚ) • inter.normal,
          light_dir_of F inter light⟩,
        ∃ S, object.intersect F ⟨inter.point + (1 / 1000000 : ℚ) • inter.normal,
            light_dir_of F inter light⟩ = some S ∧
          1 / 1000000 ≤ S.distance ∧
          ¬(inter.is_back_face = true ∧ S.is_back_face = true) ∧
          (match light with
            | .Point position _ => S.distance < vlen F (position - inter.point)
            | .Directional _ _ => True) := by
  unfold shadow_check
  simp only [List.any_eq_true, List.mem_filterMap]
  constructor
  · rintro ⟨S, ⟨object, hobj, hint⟩, hS⟩
    split_ifs at hS with hd hb
    refine ⟨object, hobj, S, hint, le_of_not_lt hd, ?_, ?_⟩
    · intro hcontra
      exact hb (by simp [hcontra.1, hcontra.2])
    · cases light with
      | Point pos c => simpa using hS
      | Directional d c => trivial
  · rintro ⟨object, hobj, S, hint, hd, hb, hl⟩
    refine ⟨S, ⟨object, hobj, hint⟩, ?_⟩
    rw [if_neg (not_lt.mpr hd)]
    have hb2 : ¬(inter.is_back_face && S.is_back_face) = true := by
      simp only [Bool.and_eq_true]
      exact hb
    rw [if_neg hb2]
    cases light with
    | Point pos c => simpa using hl
    | Directional d c => rfl

/-- Packed-pixel image from `imgcomparator/mod.rs`; pixels are `u32` values
modelled as naturals (all values produced stay below `2^32`). -/
structure Image where
  width : ℕ
  height : ℕ
  data : List ℕ
deriving DecidableEq, Repr

/-- Channel extraction `extract_rgb` of `imgcomparator/mod.rs`
(`RED_SHIFT = 16`, `GREEN_SHIFT = 8`, `CHANNEL_MASK = 0xFF`). -/
def extract_rgb (pixel : ℕ) : ℕ × ℕ × ℕ :=
  ((pixel >>> 16) &&& 255, (pixel >>> 8) &&& 255, pixel &&& 255)

/-- Channel packing `pack_rgb` of `imgcomparator/mod.rs`; the `% 2^32` keeps
the `u32` wrap-around semantics of the left shifts for arbitrary inputs. -/
def pack_rgb (r g b : ℕ) : ℕ :=
  (((r <<< 16) % 2 ^ 32) ||| ((g <<< 8) % 2 ^ 32)) ||| b

/-- Tone-map of one channel in `find_color`: clamp to `[0,1]`, scale by 255,
round to nearest, convert to integer.  The rounded value is non-negative, so
`f32::round` (half away from zero) agrees with `round` (half up). -/
def to_channel (q : ℚ) : ℕ := (round (min (max q 0) 1 * 255)).toNat

/-- The `find_color` of `raytracer.rs`: trace at depth 0, tone-map, and pack
`(r << 16) | (g << 8) | b`.  The channels are at most 255 (proved below), so
the `u32` shifts cannot wrap. -/
def find_color (F : FloatFns) (tr : Traverse) (cfg : Config) (origin direction : Vec3) : ℕ :=
  let color_vec := find_color_recursive F tr cfg origin direction 0
  let r := to_channel color_vec.x
  let g := to_channel color_vec.y
  let b := to_channel color_vec.z
  ((r <<< 16) ||| (g <<< 8)) ||| b

/-- Derived camera direction from `camera.rs`. -/
def Camera.direction (F : FloatFns) (c : Camera) : Vec3 := normalize F (c.look_at - c.position)

/-- One pixel of `RayTracer::render` in `raytracer.rs`.  The per-frame
values (camera basis, `pixel_width`, `pixel_height`, half sizes) and the
per-row value `b` are loop-invariant pure computations that the code hoists
out of the loops; they are re-derived per pixel here, which yields the same
value. -/
def pixel_color (F : FloatFns) (tr : Traverse) (cfg : Config) (x y : ℕ) : ℕ :=
  let camera_vector := normalize F (cfg.camera.direction F)
  let normal_to_plane := normalize F (cross camera_vector cfg.camera.up)
  let v := normalize F (cross normal_to_plane camera_vector)
  let fovrad := cfg.camera.fov * F.pi / 180
  let pixel_height := F.tan (fovrad / 2)
  let pixel_width := pixel_height * ((cfg.width : ℚ) / (cfg.height : ℚ))
  let img_width_by_2 := (cfg.width : ℚ) / 2
  let img_height_by_2 := (cfg.height : ℚ) / 2
  let b := (pixel_height * (img_height_by_2 - ((y : ℚ) + 1 / 2))) / img_height_by_2
  let a := (pixel_width * (((x : ℚ) + 1 / 2) - img_width_by_2)) / img_width_by_2
  let d := normalize F (a • normal_to_plane + b • v + camera_vector)
  find_color F tr cfg cfg.camera.position d

/-- `RayTracer::render` of `raytracer.rs`.  The buffer `vec![0u32; w*h]` is
split into rows by `par_chunks_mut(width)` and every pixel of every row is
overwritten, so the result is the row-major concatenation of the per-pixel
values.  `par_chunks_mut` panics when its chunk size `width` is zero; the
panic is modelled as `none`.  The `Ok`/`Err` result type of the Rust
signature is kept even though the body only ever produces `Ok`. -/
def render (F : FloatFns) (tr : Traverse) (cfg : Config) : Option (Except String Image) :=
  if cfg.width = 0 then none
  else
    some (Except.ok
      ⟨cfg.width, cfg.height,
        (List.range cfg.height).flatMap (fun y =>
          (List.range cfg.width).map (fun x => pixel_color F tr cfg x y))⟩)

/-- Indexing a concatenation of equal-length rows at `y * w + x` returns
entry `x` of row `y`. -/
theorem flatten_getElem_rows {α : Type} (w : ℕ) (rows : List (List α))
    (hw : ∀ r ∈ rows, r.length = w) (y x : ℕ) (hx : x < w) (hy : y < rows.length) :
    rows.flatten[(y * w + x)]? = rows[y]?.bind (fun r => r[x]?) := by
  induction rows generalizing y with
  | nil => simp at hy
  | cons r rs ih =>
    have hr : r.length = w := hw r (by simp)
    cases y with
    | zero =>
      simp only [List.flatten_cons, List.getElem?_append, Nat.zero_mul, Nat.zero_add]
      rw [if_pos (by omega)]
      simp
    | succ y =>
      have harith : (y + 1) * w + x = r.length + (y * w + x) := by
        rw [hr]; ring
      simp only [List.flatten_cons, harith, List.getElem?_append]
      rw [if_neg (by omega)]
      have : r.length + (y * w + x) - r.length = y * w + x := by omega
      rw [this]
      rw [ih (fun q hq => hw q (by simp [hq])) y (by simpa using hy)]
      simp

/-- C6: rendering is deterministic — the model of `render` is a pure
function, so two renders of the same scene are equal — and the pixel stored
at the row-major offset `y * width + x` is exactly the per-pixel function
`pixel_color` of the coordinates and the immutable scene. -/
theorem c6_render_deterministic_row_major (F : FloatFns) (tr : Traverse) (cfg : Config)
    (x y : ℕ) (hx : x < cfg.width) (hy : y < cfg.height) :
    render F tr cfg = render F tr cfg ∧
      ∀ img, render F tr cfg = some (Except.ok img) →
        img.data[(y * cfg.width + x)]? = some (pixel_color F tr cfg x y) := by
  refine ⟨rfl, fun img himg => ?_⟩
  rw [render, if_neg (by omega)] at himg
  rw [Option.some_inj] at himg
  cases himg
  rw [List.flatMap_def]
  rw [flatten_getElem_rows cfg.width _ ?_ y x hx ?_]
  · rw [List.getElem?_map, List.getElem?_range hy]
    simp [List.getElem?_map, List.getElem?_range hx]
  · intro r hr
    obtain ⟨a, _, rfl⟩ := List.mem_map.mp hr
    simp
  · simpa using hy

/-- A 1×1 scene over the empty candidate set, used by the C6 and C10
witnesses. -/
def cfg1 : Config := ⟨1, 1, "output.png", cam0, ⟨0, 0, 0⟩, 1, 0, [], []⟩

/-- Candidate producer of an empty scene. -/
def trE : Traverse := fun _ => []

/-- C6 witness: the theorem applied at pixel (0,0) of the 1×1 empty scene. -/
theorem c6_render_deterministic_row_major_witness :
    ((0 : ℕ) < cfg1.width ∧ (0 : ℕ) < cfg1.height) ∧
      (render F0 trE cfg1 = render F0 trE cfg1 ∧
        ∀ img, render F0 trE cfg1 = some (Except.ok img) →
          img.data[(0 * cfg1.width + 0)]? = some (pixel_color F0 trE cfg1 0 0)) := by
  have hx : (0 : ℕ) < cfg1.width := by norm_num [cfg1]
  have hy : (0 : ℕ) < cfg1.height := by norm_num [cfg1]
  exact ⟨⟨hx, hy⟩, c6_render_deterministic_row_major F0 trE cfg1 0 0 hx hy⟩

/-- C9: for every pixel value below `2^24` (high byte zero), packing the
three extracted channels returns the original value. -/
theorem c9_pack_extract_roundtrip (p : ℕ) (hp : p < 2 ^ 24) :
    pack_rgb (extract_rgb p).1 (extract_rgb p).2.1 (extract_rgb p).2.2 = p := by
  unfold pack_rgb extract_rgb
  have hr : (p >>> 16) &&& 255 ≤ 255 := Nat.and_le_right
  have hg : (p >>> 8) &&& 255 ≤ 255 := Nat.and_le_right
  have h1 : (((p >>> 16) &&& 255) <<< 16) % 2 ^ 32 = ((p >>> 16) &&& 255) <<< 16 := by
    apply Nat.mod_eq_of_lt
    rw [Nat.shiftLeft_eq]
    calc ((p >>> 16) &&& 255) * 2 ^ 16 ≤ 255 * 2 ^ 16 := Nat.mul_le_mul_right _ hr
    _ < 2 ^ 32 := by norm_num
  have h2 : (((p >>> 8) &&& 255) <<< 8) % 2 ^ 32 = ((p >>> 8) &&& 255) <<< 8 := by
    apply Nat.mod_eq_of_lt
    rw [Nat.shiftLeft_eq]
    calc ((p >>> 8) &&& 255) * 2 ^ 8 ≤ 255 * 2 ^ 8 := Nat.mul_le_mul_right _ hg
    _ < 2 ^ 32 := by norm_num
  rw [h1, h2]
  apply Nat.eq_of_testBit_eq
  intro i
  have h255 : (255 : ℕ) = 2 ^ 8 - 1 := by norm_num
  simp only [Nat.testBit_lor, Nat.testBit_shiftLeft, Nat.testBit_and, Nat.testBit_shiftRight,
    h255, Nat.testBit_two_pow_sub_one]
  rcases Nat.lt_or_ge i 8 with h8 | h8
  · rw [decide_eq_false (show ¬ i ≥ 16 by omega), decide_eq_false (show ¬ i ≥ 8 by omega),
      decide_eq_true h8]
    simp
  rcases Nat.lt_or_ge i 16 with h16 | h16
  · rw [decide_eq_false (show ¬ i ≥ 16 by omega), decide_eq_true h8,
      decide_eq_true (show i - 8 < 8 by omega), decide_eq_false (show ¬ i < 8 by omega),
      show 8 + (i - 8) = i by omega]
    simp
  rcases Nat.lt_or_ge i 24 with h24 | h24
  · rw [decide_eq_true h16, decide_eq_true h8, decide_eq_true (show i - 16 < 8 by omega),
      decide_eq_false (show ¬ i - 8 < 8 by omega), decide_eq_false (show ¬ i < 8 by omega),
      show 16 + (i - 16) = i by omega]
    simp
  · have hzero : Nat.testBit p i = false :=
      Nat.testBit_lt_two_pow (lt_of_lt_of_le hp (Nat.pow_le_pow_right (by omega) h24))
    rw [decide_eq_true h16, decide_eq_true h8,
      decide_eq_false (show ¬ i - 16 < 8 by omega),
      decide_eq_false (show ¬ i - 8 < 8 by omega), decide_eq_false (show ¬ i < 8 by omega)]
    simp [hzero]

/-- C9 witness: the round-trip theorem applied at the concrete pixel
`0x123456 < 2^24`. -/
theorem c9_pack_extract_roundtrip_witness :
    1193046 < 2 ^ 24 ∧
      pack_rgb (extract_rgb 1193046).1 (extract_rgb 1193046).2.1 (extract_rgb 1193046).2.2 =
        1193046 :=
  ⟨by norm_num, c9_pack_extract_roundtrip 1193046 (by norm_num)⟩

/-- Every tone-mapped channel is at most 255. -/
theorem to_channel_le (q : ℚ) : to_channel q ≤ 255 := by
  unfold to_channel
  rw [Int.toNat_le, round_eq]
  have hle : min (max q 0) 1 * 255 + 1 / 2 ≤ (255 : ℚ) + 1 / 2 := by
    have h1 : min (max q 0) 1 ≤ 1 := min_le_right _ _
    nlinarith
  calc ⌊min (max q 0) 1 * 255 + 1 / 2⌋ ≤ ⌊(255 : ℚ) + 1 / 2⌋ := Int.floor_le_floor hle
  _ = 255 := by norm_num

/-- Every packed pixel `find_color` produces is below `2^24`. -/
theorem find_color_lt_two_pow (F : FloatFns) (tr : Traverse) (cfg : Config)
    (origin direction : Vec3) : find_color F tr cfg origin direction < 2 ^ 24 := by
  unfold find_color
  apply Nat.or_lt_two_pow
  · apply Nat.or_lt_two_pow
    · rw [Nat.shiftLeft_eq]
      calc to_channel (find_color_recursive F tr cfg origin direction 0).x * 2 ^ 16
          ≤ 255 * 2 ^ 16 := Nat.mul_le_mul_right _ (to_channel_le _)
      _ < 2 ^ 24 := by norm_num
    · rw [Nat.shiftLeft_eq]
      calc to_channel (find_color_recursive F tr cfg origin direction 0).y * 2 ^ 8
          ≤ 255 * 2 ^ 8 := Nat.mul_le_mul_right _ (to_channel_le _)
      _ < 2 ^ 24 := by norm_num
  · have := to_channel_le (find_color_recursive F tr cfg origin direction 0).z
    omega

/-- C10 counterexample to unconditional totality: when `cfg.width = 0`,
`par_chunks_mut(0)` panics (modelled as `none`), so `render` does not return
`Ok` for every `Config`. -/
theorem c10_render_width_zero_counterexample :
    render F0 trE ⟨0, 1, "output.png", cam0, ⟨0, 0, 0⟩, 1, 0, [], []⟩ = none := by
  rw [render, if_pos rfl]

/-- C10 (amended): for every configuration with positive width the CPU
backend cannot fail: `render` returns `Ok` with exactly `width · height`
pixels, each below `2^24` (high byte zero). -/
theorem c10_render_ok_size_bounded (F : FloatFns) (tr : Traverse) (cfg : Config)
    (hw : 0 < cfg.width) :
    ∃ img, render F tr cfg = some (Except.ok img) ∧
      img.data.length = cfg.width * cfg.height ∧
      ∀ p ∈ img.data, p < 2 ^ 24 := by
  refine ⟨_, by rw [render, if_neg (by omega)], ?_, ?_⟩
  · rw [List.length_flatMap]
    have hmap : List.map (List.length ∘ fun y =>
        (List.range cfg.width).map (fun x => pixel_color F tr cfg x y))
        (List.range cfg.height) = List.replicate cfg.height cfg.width := by
      rw [show (List.length ∘ fun y =>
          (List.range cfg.width).map (fun x => pixel_color F tr cfg x y)) =
          Function.const ℕ cfg.width from ?_]
      · rw [List.map_const, List.length_range]
      · funext a
        simp
    rw [hmap, List.sum_replicate, smul_eq_mul, Nat.mul_comm]
  · intro p hp
    rw [List.mem_flatMap] at hp
    obtain ⟨a, _, hpa⟩ := hp
    rw [List.mem_map] at hpa
    obtain ⟨b, _, rfl⟩ := hpa
    exact find_color_lt_two_pow F tr cfg cfg.camera.position _

/-- C10 witness: the amended theorem applied to the 1×1 empty scene. -/
theorem c10_render_ok_size_bounded_witness :
    (0 : ℕ) < cfg1.width ∧
      ∃ img, render F0 trE cfg1 = some (Except.ok img) ∧
        img.data.length = cfg1.width * cfg1.height ∧
        ∀ p ∈ img.data, p < 2 ^ 24 :=
  ⟨by norm_num [cfg1], c10_render_ok_size_bounded F0 trE cfg1 (by norm_num [cfg1])⟩

/-!
Scene-file parser of `config_builder.rs`.  A line of the scene file is
modelled as its character list.  Rust string primitives are modelled for the
ASCII subset the scene format uses: `trim`/`trim_start` strip the usual
whitespace characters, `split(' ')` splits on single spaces keeping empty
pieces, and the strict `parse::<f32>` / `parse::<u32>` / `parse::<usize>`
number parsers are modelled on the plain decimal grammar (sign, digits,
optional fraction; exponents and the `inf`/`NaN` spellings are not used by
scene files and are not modelled, and decimal literals are given their exact
rational value rather than the nearest `f32`).  Error messages of the
number parsers are collapsed to fixed strings; the `Ok`/`Err` structure is
preserved exactly.
-/

/-- Whitespace test for the modelled `trim`, covering the ASCII whitespace
Rust recognises. -/
def isSpaceChar (c : Char) : Bool := c = ' ' ∨ c = '\t' ∨ c = '\n' ∨ c = '\r'

/-- Model of `str::trim_start`. -/
def trimStartChars (s : List Char) : List Char := s.dropWhile isSpaceChar

/-- Model of `str::trim_end`. -/
def trimEndChars (s : List Char) : List Char := (s.reverse.dropWhile isSpaceChar).reverse

/-- Model of `str::trim`. -/
def trimChars (s : List Char) : List Char := trimEndChars (trimStartChars s)

/-- Model of `str::split(' ')`: split at every single space, keeping empty
pieces (so the result is always non-empty). -/
def splitSp : List Char → List (List Char)
  | [] => [[]]
  | c :: rest =>
    if c = ' ' then [] :: splitSp rest
    else
      match splitSp rest with
      | [] => [[c]]
      | t :: ts => (c :: t) :: ts

/-- Decimal digit value of a character. -/
def digitVal (c : Char) : Option ℕ :=
  if c = '0' then some 0 else if c = '1' then some 1 else if c = '2' then some 2
  else if c = '3' then some 3 else if c = '4' then some 4 else if c = '5' then some 5
  else if c = '6' then some 6 else if c = '7' then some 7 else if c = '8' then some 8
  else if c = '9' then some 9 else none

/-- Whether a character is a decimal digit. -/
def isDigitChar (c : Char) : Bool := (digitVal c).isSome

/-- Value of a digit string (left fold with accumulator). -/
def digitsVal : List Char → ℕ → ℕ
  | [], acc => acc
  | c :: rest, acc => digitsVal rest (acc * 10 + (digitVal c).getD 0)

/-- Strict non-empty all-digit parse. -/
def parseDigits (s : List Char) : Option ℕ :=
  if s = [] then none
  else if s.all isDigitChar then some (digitsVal s 0) else none

/-- Model of `str::parse::<u32>` (optional `+`, digits, range check). -/
def parse_u32 (s : List Char) : Option ℕ :=
  let s1 := if s.headD ' ' = '+' then s.drop 1 else s
  match parseDigits s1 with
  | some n => if n < 2 ^ 32 then some n else none
  | none => none

/-- Model of `str::parse::<usize>` (64-bit). -/
def parse_usize (s : List Char) : Option ℕ :=
  let s1 := if s.headD ' ' = '+' then s.drop 1 else s
  match parseDigits s1 with
  | some n => if n < 2 ^ 64 then some n else none
  | none => none

/-- Model of the strict `str::parse::<f32>` on the decimal grammar (see the
section docstring): optional sign, integer digits, optional fraction; at
least one digit overall. -/
def parse_f32 (s : List Char) : Option ℚ :=
  let sgn : ℚ := if s.headD ' ' = '-' then -1 else 1
  let s1 := if s.headD ' ' = '-' ∨ s.headD ' ' = '+' then s.drop 1 else s
  let ip := s1.takeWhile (fun c => c ≠ '.')
  let rest := s1.dropWhile (fun c => c ≠ '.')
  match rest with
  | [] =>
    match parseDigits ip with
    | some n => some (sgn * (n : ℚ))
    | none => none
  | _ :: fp =>
    if fp.any (fun c => c = '.') then none
    else if ip = [] ∧ fp = [] then none
    else if ip.all isDigitChar ∧ fp.all isDigitChar then
      some (sgn * ((digitsVal ip 0 : ℚ) + (digitsVal fp 0 : ℚ) / 10 ^ fp.length))
    else none

/-- Parser state `ParsedConfigState` of `config_builder.rs` (current
material and vertex pool). -/
structure ParsedConfigState where
  diffuse_color : Vec3
  specular_color : Vec3
  shininess : ℚ
  vertices : List Vec3
deriving DecidableEq, Repr

/-- `ParsedConfigState::new` (defaults: black material, shininess 0). -/
def ParsedConfigState.new : ParsedConfigState := ⟨⟨0, 0, 0⟩, ⟨0, 0, 0⟩, 0, []⟩

/-- `check_rgb_values` of `config_builder.rs`. -/
def check_rgb_values (r g b : ℚ) : Except String Unit :=
  if ¬(0 ≤ r ∧ r ≤ 1) ∨ ¬(0 ≤ g ∧ g ≤ 1) ∨ ¬(0 ≤ b ∧ b ≤ 1) then
    .error "RGB values must be between 0.0 and 1.0"
  else .ok ()

/-- `parse_size` of `config_builder.rs`. -/
def parse_size (value : List Char) : Except String (ℕ × ℕ) :=
  let dims := splitSp value
  if dims.length ≠ 2 then .error "Invalid size format"
  else
    match parse_u32 (dims.getD 0 []), parse_u32 (dims.getD 1 []) with
    | some width, some height =>
      if width = 0 ∨ height = 0 then .error "Width and height must be greater than zero"
      else .ok (width, height)
    | _, _ => .error "invalid digit found in string"

/-- `parse_simple_vec3` of `config_builder.rs`. -/
def parse_simple_vec3 (value : List Char) : Except String Vec3 :=
  let comps := splitSp value
  if comps.length ≠ 3 then .error "Invalid Vec3 format"
  else
    match parse_f32 (comps.getD 0 []), parse_f32 (comps.getD 1 []),
      parse_f32 (comps.getD 2 []) with
    | some x, some y, some z => .ok ⟨x, y, z⟩
    | _, _, _ => .error "invalid float literal"

/-- `parse_ambient` of `config_builder.rs`. -/
def parse_ambient (value : List Char) : Except String Vec3 :=
  let comps := splitSp value
  if comps.length ≠ 3 then .error "Invalid ambient light format"
  else
    match parse_f32 (comps.getD 0 []), parse_f32 (comps.getD 1 []),
      parse_f32 (comps.getD 2 []) with
    | some r, some g, some b =>
      match check_rgb_values r g b with
      | .ok _ => .ok ⟨r, g, b⟩
      | .error e => .error e
    | _, _, _ => .error "invalid float literal"

/-- `parse_output` of `config_builder.rs`. -/
def parse_output (value : List Char) : Except String String :=
  let output_file := trimChars value
  if output_file = [] then .error "Output file name cannot be empty"
  else .ok (String.mk output_file)

/-- `parse_camera` of `config_builder.rs`. -/
def parse_camera (value : List Char) : Except String Camera :=
  let params := splitSp value
  if params.length ≠ 10 then .error "Invalid camera format"
  else
    match parse_f32 (params.getD 0 []), parse_f32 (params.getD 1 []),
      parse_f32 (params.getD 2 []), parse_f32 (params.getD 3 []),
      parse_f32 (params.getD 4 []), parse_f32 (params.getD 5 []),
      parse_f32 (params.getD 6 []), parse_f32 (params.getD 7 []),
      parse_f32 (params.getD 8 []), parse_f32 (params.getD 9 []) with
    | some px, some py, some pz, some lx, some ly, some lz, some ux, some uy, some uz,
        some fov =>
      if fov < 1 ∨ fov > 179 then
        .error "Field of view (fov) must be between 1 and 179 degrees"
      else .ok ⟨⟨px, py, pz⟩, ⟨lx, ly, lz⟩, ⟨ux, uy, uz⟩, fov⟩
    | _, _, _, _, _, _, _, _, _, _ => .error "invalid float literal"

/-- `parse_sphere` of `config_builder.rs` (uses the current material). -/
def parse_sphere (st : ParsedConfigState) (value : List Char) : Except String Shape :=
  let params := splitSp value
  if params.length ≠ 4 then .error "Invalid sphere format"
  else
    match parse_f32 (params.getD 0 []), parse_f32 (params.getD 1 []),
      parse_f32 (params.getD 2 []), parse_f32 (params.getD 3 []) with
    | some cx, some cy, some cz, some radius =>
      if radius ≤ 0 then .error "Sphere radius must be greater than zero"
      else .ok (.Sphere ⟨cx, cy, cz⟩ radius st.diffuse_color st.specular_color st.shininess 0)
    | _, _, _, _ => .error "invalid float literal"

/-- `parse_triangle` of `config_builder.rs` (vertex-pool indices). -/
def parse_triangle (st : ParsedConfigState) (value : List Char) : Except String Shape :=
  let params := splitSp value
  if params.length ≠ 3 then .error "Invalid triangle format"
  else
    match parse_usize (params.getD 0 []), parse_usize (params.getD 1 []),
      parse_usize (params.getD 2 []) with
    | some j0, some j1, some j2 =>
      if st.vertices.length ≤ j0 ∨ st.vertices.length ≤ j1 ∨ st.vertices.length ≤ j2 then
        .error "Triangle vertex index out of bounds"
      else
        .ok (.Triangle (st.vertices.getD j0 ⟨0, 0, 0⟩) (st.vertices.getD j1 ⟨0, 0, 0⟩)
          (st.vertices.getD j2 ⟨0, 0, 0⟩) st.diffuse_color st.specular_color st.shininess 0)
    | _, _, _ => .error "invalid digit found in string"

/-- `parse_plane` of `config_builder.rs` (the stored normal is normalised). -/
def parse_plane (F : FloatFns) (st : ParsedConfigState) (value : List Char) :
    Except String Shape :=
  let params := splitSp value
  if params.length ≠ 6 then .error "Invalid plane format"
  else
    match parse_f32 (params.getD 0 []), parse_f32 (params.getD 1 []),
      parse_f32 (params.getD 2 []), parse_f32 (params.getD 3 []),
      parse_f32 (params.getD 4 []), parse_f32 (params.getD 5 []) with
    | some px, some py, some pz, some nx, some ny, some nz =>
      .ok (.Plane ⟨px, py, pz⟩ (normalize F ⟨nx, ny, nz⟩) st.diffuse_color st.specular_color
        st.shininess 0)
    | _, _, _, _, _, _ => .error "invalid float literal"

/-- `parse_point_light` of `config_builder.rs`. -/
def parse_point_light (value : List Char) : Except String Light :=
  let params := splitSp value
  if params.length ≠ 6 then .error "Invalid point light format"
  else
    match parse_f32 (params.getD 0 []), parse_f32 (params.getD 1 []),
      parse_f32 (params.getD 2 []), parse_f32 (params.getD 3 []),
      parse_f32 (params.getD 4 []), parse_f32 (params.getD 5 []) with
    | some px, some py, some pz, some r, some g, some b =>
      match check_rgb_values r g b with
      | .ok _ => .ok (.Point ⟨px, py, pz⟩ ⟨r, g, b⟩)
      | .error e => .error e
    | _, _, _, _, _, _ => .error "invalid float literal"

/-- `parse_directional_light` of `config_builder.rs` (direction normalised). -/
def parse_directional_light (F : FloatFns) (value : List Char) : Except String Light :=
  let params := splitSp value
  if params.length ≠ 6 then .error "Invalid directional light format"
  else
    match parse_f32 (params.getD 0 []), parse_f32 (params.getD 1 []),
      parse_f32 (params.getD 2 []), parse_f32 (params.getD 3 []),
      parse_f32 (params.getD 4 []), parse_f32 (params.getD 5 []) with
    | some dx, some dy, some dz, some r, some g, some b =>
      match check_rgb_values r g b with
      | .ok _ => .ok (.Directional (normalize F ⟨dx, dy, dz⟩) ⟨r, g, b⟩)
      | .error e => .error e
    | _, _, _, _, _, _ => .error "invalid float literal"

/-- `ParsedConfigState::parse_line` of `config_builder.rs`: blank and `#`
lines are skipped, a directive is dispatched only when the line has at least
two space-separated parts, and an unknown first token is an error.  On an
error the Rust code may already have written into `self` before failing;
since `load_config_file` aborts at the first error, only the `Ok` results
(returned here as the updated state/config pair) are observable. -/
def parse_line (F : FloatFns) (st : ParsedConfigState) (line : List Char) (cfg : Config) :
    Except String (ParsedConfigState × Config) :=
  if trimChars line = [] ∨ (trimStartChars line).headD ' ' = '#' then .ok (st, cfg)
  else
    let parts := (splitSp line).map trimChars
    if 2 ≤ parts.length then
      let first := parts.headD []
      let param := trimChars (line.drop first.length)
      if first = "size".toList then
        match parse_size param with
        | .ok wh => .ok (st, { cfg with width := wh.1, height := wh.2 })
        | .error e => .error e
      else if first = "output".toList then
        match parse_output param with
        | .ok o => .ok (st, { cfg with output_file := o })
        | .error e => .error e
      else if first = "camera".toList then
        match parse_camera param with
        | .ok c => .ok (st, { cfg with camera := c })
        | .error e => .error e
      else if first = "ambient".toList then
        match parse_ambient param with
        | .ok a => .ok (st, { cfg with ambient := a })
        | .error e => .error e
      else if first = "sphere".toList then
        match parse_sphere st param with
        | .ok s => .ok (st, { cfg with scene_objects := cfg.scene_objects ++ [s] })
        | .error e => .error e
      else if first = "tri".toList then
        match parse_triangle st param with
        | .ok s => .ok (st, { cfg with scene_objects := cfg.scene_objects ++ [s] })
        | .error e => .error e
      else if first = "plane".toList then
        match parse_plane F st param with
        | .ok s => .ok (st, { cfg with scene_objects := cfg.scene_objects ++ [s] })
        | .error e => .error e
      else if first = "point".toList then
        match parse_point_light param with
        | .ok l => .ok (st, { cfg with lights := cfg.lights ++ [l] })
        | .error e => .error e
      else if first = "directional".toList then
        match parse_directional_light F param with
        | .ok l => .ok (st, { cfg with lights := cfg.lights ++ [l] })
        | .error e => .error e
      else if first = "diffuse".toList then
        match parse_simple_vec3 param with
        | .ok v =>
          match check_rgb_values v.x v.y v.z with
          | .ok _ =>
            if v.x + cfg.ambient.x > 1 ∨ v.y + cfg.ambient.y > 1 ∨ v.z + cfg.ambient.z > 1 then
              .error "Sum of diffuse color and ambient light components must not exceed 1.0"
            else .ok ({ st with diffuse_color := v }, cfg)
          | .error e => .error e
        | .error e => .error e
      else if first = "specular".toList then
        match parse_simple_vec3 param with
        | .ok v =>
          if v.x < 0 ∨ v.y < 0 ∨ v.z < 0 then
            .error "Specular color components must be non-negative"
          else .ok ({ st with specular_color := v }, cfg)
        | .error e => .error e
      else if first = "shininess".toList then
        match parse_f32 param with
        | some sh =>
          if sh < 0 then .error "Shininess must be non-negative"
          else .ok ({ st with shininess := sh }, cfg)
        | none => .error "invalid float literal"
      else if first = "maxdepth".toList then
        match parse_u32 param with
        | some n => .ok (st, { cfg with maxdepth := n })
        | none => .error "invalid digit found in string"
      else if first = "maxverts".toList then
        match parse_u32 param with
        | some n => .ok (st, { cfg with maxverts := n })
        | none => .error "invalid digit found in string"
      else if first = "vertex".toList then
        match parse_simple_vec3 param with
        | .ok v =>
          if cfg.maxverts ≤ st.vertices.length then
            .error "Exceeded maximum number of vertices (maxverts)"
          else .ok ({ st with vertices := st.vertices ++ [v] }, cfg)
        | .error e => .error e
      else .error ("Unknown configuration key: " ++ String.mk first)
    else .ok (st, cfg)

/-- The default configuration built at the top of `load_config_file`. -/
def initConfig : Config := ⟨800, 600, "output.png", cam0, ⟨0, 0, 0⟩, 1, 0, [], []⟩

/-- `load_config_file` of `config_builder.rs` on the list of lines of the
already-opened scene file (I/O is outside the model). -/
def load_config (F : FloatFns) (lines : List (List Char)) : Except String Config :=
  match lines.foldlM (fun acc line => parse_line F acc.1 line acc.2)
      (ParsedConfigState.new, initConfig) with
  | .ok acc => .ok acc.2
  | .error e => .error e

/-- The 15 directives recognised by `parse_line`. -/
def directive_names : List (List Char) :=
  ["size".toList, "output".toList, "camera".toList, "ambient".toList, "sphere".toList,
    "tri".toList, "plane".toList, "point".toList, "directional".toList, "diffuse".toList,
    "specular".toList, "shininess".toList, "maxdepth".toList, "maxverts".toList,
    "vertex".toList]

/-- Whether an `Except` result is an error. -/
def isErr {ε α : Type} : Except ε α → Bool
  | .error _ => true
  | .ok _ => false

/-- C8 counterexample: the single-token line `foo` is non-blank, does not
begin with `#`, and its first (and only) token is not a recognised
directive, yet `load_config_file` accepts the file: lines with fewer than
two space-separated parts are silently ignored by the `parts.len() >= 2`
guard, so no parse error is raised. -/
theorem c8_unknown_single_token_counterexample :
    trimChars ("foo".toList) ≠ [] ∧
      (trimStartChars ("foo".toList)).headD ' ' ≠ '#' ∧
      ("foo".toList ∈ directive_names) = False ∧
      load_config F0 ["foo".toList] = .ok initConfig := by
  refine ⟨by decide, by decide, by decide, ?_⟩
  rfl

/-- C8 (amended): blank lines and lines beginning with `#` are ignored;
lines with fewer than two space-separated parts are also ignored (this is
where the original claim fails); and a non-blank, non-comment line with at
least two parts whose first token is not a recognised directive makes
`parse_line` — and hence `load_config_file` — return a parse error. -/
theorem c8_parse_line_unknown_directive (F : FloatFns) (st : ParsedConfigState)
    (line : List Char) (cfg : Config) :
    ((trimChars line = [] ∨ (trimStartChars line).headD ' ' = '#') →
      parse_line F st line cfg = .ok (st, cfg)) ∧
    (((splitSp line).map trimChars).length < 2 →
      parse_line F st line cfg = .ok (st, cfg)) ∧
    (¬(trimChars line = [] ∨ (trimStartChars line).headD ' ' = '#') →
      2 ≤ ((splitSp line).map trimChars).length →
      ((splitSp line).map trimChars).headD [] ∉ directive_names →
      isErr (parse_line F st line cfg) = true) := by
  refine ⟨fun h => ?_, fun hlen => ?_, fun hb hlen hunk => ?_⟩
  · rw [parse_line, if_pos h]
  · by_cases hb : trimChars line = [] ∨ (trimStartChars line).headD ' ' = '#'
    · rw [parse_line, if_pos hb]
    · simp only [parse_line]
      rw [if_neg hb, if_neg (by omega)]
  · simp only [directive_names, List.mem_cons, List.not_mem_nil, or_false, not_or] at hunk
    obtain ⟨e1, e2, e3, e4, e5, e6, e7, e8, e9, e10, e11, e12, e13, e14, e15⟩ := hunk
    simp only [parse_line]
    rw [if_neg hb, if_pos hlen, if_neg e1, if_neg e2, if_neg e3, if_neg e4, if_neg e5,
      if_neg e6, if_neg e7, if_neg e8, if_neg e9, if_neg e10, if_neg e11, if_neg e12,
      if_neg e13, if_neg e14, if_neg e15]
    rfl

/-- C8 witness: the amended theorem applied to the two-token unknown line
`foo bar`, which is rejected. -/
theorem c8_parse_line_unknown_directive_witness :
    (¬(trimChars ("foo bar".toList) = [] ∨
        (trimStartChars ("foo bar".toList)).headD ' ' = '#') ∧
      2 ≤ ((splitSp ("foo bar".toList)).map trimChars).length ∧
      ((splitSp ("foo bar".toList)).map trimChars).headD [] ∉ directive_names) ∧
      isErr (parse_line F0 ParsedConfigState.new ("foo bar".toList) initConfig) = true := by
  have hb : ¬(trimChars ("foo bar".toList) = [] ∨
      (trimStartChars ("foo bar".toList)).headD ' ' = '#') := by decide
  have hlen : 2 ≤ ((splitSp ("foo bar".toList)).map trimChars).length := by decide
  have hunk : ((splitSp ("foo bar".toList)).map trimChars).headD [] ∉ directive_names := by
    decide
  exact ⟨⟨hb, hlen, hunk⟩,
    (c8_parse_line_unknown_directive F0 ParsedConfigState.new ("foo bar".toList)
      initConfig).2.2 hb hlen hunk⟩

/-- Diffuse color of a primitive. -/
def Shape.diffuse : Shape → Vec3
  | .Sphere _ _ d _ _ _ => d
  | .Triangle _ _ _ d _ _ _ => d
  | .Plane _ _ d _ _ _ => d

/-- A scene file that sets `diffuse 0.8`, then raises `ambient` to `0.5`,
then emits a sphere: every directive passes its own check, yet the emitted
sphere has `diffuse + ambient = 1.3 > 1` per channel. -/
def c7_lines : List (List Char) :=
  ["diffuse 0.8 0.8 0.8".toList, "ambient 0.5 0.5 0.5".toList, "sphere 0 0 0 1".toList]

/-- Parser state after the `diffuse 0.8 0.8 0.8` line. -/
def st1 : ParsedConfigState := ⟨⟨4 / 5, 4 / 5, 4 / 5⟩, ⟨0, 0, 0⟩, 0, []⟩

/-- The configuration `load_config_file` produces for `c7_lines`. -/
def c7_cfg : Config :=
  ⟨800, 600, "output.png", cam0, ⟨1 / 2, 1 / 2, 1 / 2⟩, 1, 0,
    [.Sphere ⟨0, 0, 0⟩ 1 ⟨4 / 5, 4 / 5, 4 / 5⟩ ⟨0, 0, 0⟩ 0 0], []⟩

/-- C7 counterexample: `load_config_file` accepts `c7_lines`, yet the
emitted sphere's diffuse color plus the scene ambient exceeds 1 per
channel — the `diffuse + ambient ≤ 1` check only runs when a `diffuse`
directive is parsed, against the ambient current at that moment, so raising
`ambient` afterwards defeats the invariant. -/
theorem c7_diffuse_ambient_counterexample :
    load_config F0 c7_lines = .ok c7_cfg ∧
      ¬(((c7_cfg.scene_objects.headD pl0).diffuse).x + c7_cfg.ambient.x ≤ 1) := by
  constructor
  · have hl1 : "diffuse 0.8 0.8 0.8".toList =
        ['d', 'i', 'f', 'f', 'u', 's', 'e', ' ', '0', '.', '8', ' ', '0', '.', '8', ' ',
          '0', '.', '8'] := by decide
    have hl2 : "ambient 0.5 0.5 0.5".toList =
        ['a', 'm', 'b', 'i', 'e', 'n', 't', ' ', '0', '.', '5', ' ', '0', '.', '5', ' ',
          '0', '.', '5'] := by decide
    have hl3 : "sphere 0 0 0 1".toList =
        ['s', 'p', 'h', 'e', 'r', 'e', ' ', '0', ' ', '0', ' ', '0', ' ', '1'] := by decide
    have p1 : parse_line F0 ParsedConfigState.new ("diffuse 0.8 0.8 0.8".toList) initConfig =
        .ok (st1, initConfig) := by
      rw [hl1]
      simp +decide [parse_line, parse_simple_vec3, parse_f32, parseDigits, digitsVal,
        digitVal, isDigitChar, splitSp, trimChars, trimStartChars, trimEndChars, isSpaceChar,
        check_rgb_values, ParsedConfigState.new, st1, initConfig]
      all_goals norm_num
    have p2 : parse_line F0 st1 ("ambient 0.5 0.5 0.5".toList) initConfig =
        .ok (st1, { initConfig with ambient := ⟨1 / 2, 1 / 2, 1 / 2⟩ }) := by
      rw [hl2]
      simp +decide [parse_line, parse_ambient, parse_f32, parseDigits, digitsVal,
        digitVal, isDigitChar, splitSp, trimChars, trimStartChars, trimEndChars, isSpaceChar,
        check_rgb_values, initConfig]
      all_goals norm_num
    have p3 : parse_line F0 st1 ("sphere 0 0 0 1".toList)
        { initConfig with ambient := ⟨1 / 2, 1 / 2, 1 / 2⟩ } = .ok (st1, c7_cfg) := by
      rw [hl3]
      simp +decide [parse_line, parse_sphere, parse_f32, parseDigits, digitsVal,
        digitVal, isDigitChar, splitSp, trimChars, trimStartChars, trimEndChars, isSpaceChar,
        st1, initConfig, c7_cfg]
    rw [load_config, c7_lines]
    simp only [List.foldlM, bind, Except.bind, pure, Except.pure, p1, p2, p3]
  · simp only [c7_cfg, Shape.diffuse, List.headD]
    norm_num

/-- C7 (amended): the `diffuse + ambient ≤ 1` invariant is enforced exactly
at the moment a `diffuse` directive is parsed, against the then-current
ambient: whenever `parse_line` accepts a non-blank, non-comment line of at
least two parts whose first token is `diffuse`, the updated state's diffuse
color plus the configuration's current ambient is at most 1 per channel.
Primitives emitted after a later `ambient` increase may violate the
claimed load-time invariant (see the counterexample). -/
theorem c7_diffuse_check_at_parse_time (F : FloatFns) (st : ParsedConfigState)
    (line : List Char) (cfg : Config) (st2 : ParsedConfigState) (cfg2 : Config)
    (hb : ¬(trimChars line = [] ∨ (trimStartChars line).headD ' ' = '#'))
    (hlen : 2 ≤ ((splitSp line).map trimChars).length)
    (hfirst : ((splitSp line).map trimChars).headD [] = "diffuse".toList)
    (hok : parse_line F st line cfg = .ok (st2, cfg2)) :
    st2.diffuse_color.x + cfg.ambient.x ≤ 1 ∧
      st2.diffuse_color.y + cfg.ambient.y ≤ 1 ∧
      st2.diffuse_color.z + cfg.ambient.z ≤ 1 := by
  simp only [parse_line] at hok
  rw [if_neg hb, if_pos hlen, hfirst] at hok
  rw [if_neg (by decide : ¬("diffuse".toList = "size".toList)),
    if_neg (by decide : ¬("diffuse".toList = "output".toList)),
    if_neg (by decide : ¬("diffuse".toList = "camera".toList)),
    if_neg (by decide : ¬("diffuse".toList = "ambient".toList)),
    if_neg (by decide : ¬("diffuse".toList = "sphere".toList)),
    if_neg (by decide : ¬("diffuse".toList = "tri".toList)),
    if_neg (by decide : ¬("diffuse".toList = "plane".toList)),
    if_neg (by decide : ¬("diffuse".toList = "point".toList)),
    if_neg (by decide : ¬("diffuse".toList = "directional".toList)),
    if_pos (rfl : "diffuse".toList = "diffuse".toList)] at hok
  generalize hv : parse_simple_vec3 (trimChars (line.drop ("diffuse".toList).length)) = pv
    at hok
  cases pv with
  | error e => simp at hok
  | ok v =>
    dsimp only at hok
    generalize hc : check_rgb_values v.x v.y v.z = cv at hok
    cases cv with
    | error e => simp at hok
    | ok u =>
      dsimp only at hok
      split_ifs at hok with hsum
      push_neg at hsum
      simp only [Except.ok.injEq, Prod.mk.injEq] at hok
      obtain ⟨hst, hcfg⟩ := hok
      subst hst
      exact ⟨hsum.1, hsum.2.1, hsum.2.2⟩

/-- C7 witness: the amended theorem applied to the line `diffuse 1 0 0`
against the default (zero-ambient) configuration. -/
theorem c7_diffuse_check_at_parse_time_witness :
    (¬(trimChars ("diffuse 1 0 0".toList) = [] ∨
        (trimStartChars ("diffuse 1 0 0".toList)).headD ' ' = '#') ∧
      2 ≤ ((splitSp ("diffuse 1 0 0".toList)).map trimChars).length ∧
      ((splitSp ("diffuse 1 0 0".toList)).map trimChars).headD [] = "diffuse".toList ∧
      parse_line F0 ParsedConfigState.new ("diffuse 1 0 0".toList) initConfig =
        .ok (⟨⟨1, 0, 0⟩, ⟨0, 0, 0⟩, 0, []⟩, initConfig)) ∧
      ((⟨⟨1, 0, 0⟩, ⟨0, 0, 0⟩, 0, []⟩ : ParsedConfigState).diffuse_color.x +
          initConfig.ambient.x ≤ 1 ∧
        (⟨⟨1, 0, 0⟩, ⟨0, 0, 0⟩, 0, []⟩ : ParsedConfigState).diffuse_color.y +
          initConfig.ambient.y ≤ 1 ∧
        (⟨⟨1, 0, 0⟩, ⟨0, 0, 0⟩, 0, []⟩ : ParsedConfigState).diffuse_color.z +
          initConfig.ambient.z ≤ 1) := by
  have hb : ¬(trimChars ("diffuse 1 0 0".toList) = [] ∨
      (trimStartChars ("diffuse 1 0 0".toList)).headD ' ' = '#') := by decide
  have hlen : 2 ≤ ((splitSp ("diffuse 1 0 0".toList)).map trimChars).length := by decide
  have hfirst : ((splitSp ("diffuse 1 0 0".toList)).map trimChars).headD [] =
      "diffuse".toList := by decide
  have hok : parse_line F0 ParsedConfigState.new ("diffuse 1 0 0".toList) initConfig =
      .ok (⟨⟨1, 0, 0⟩, ⟨0, 0, 0⟩, 0, []⟩, initConfig) := by
    have hl : "diffuse 1 0 0".toList =
        ['d', 'i', 'f', 'f', 'u', 's', 'e', ' ', '1', ' ', '0', ' ', '0'] := by decide
    rw [hl]
    simp +decide [parse_line, parse_simple_vec3, parse_f32, parseDigits, digitsVal,
      digitVal, isDigitChar, splitSp, trimChars, trimStartChars, trimEndChars, isSpaceChar,
      check_rgb_values, ParsedConfigState.new, initConfig]
  exact ⟨⟨hb, hlen, hfirst, hok⟩,
    c7_diffuse_check_at_parse_time F0 ParsedConfigState.new ("diffuse 1 0 0".toList)
      initConfig _ _ hb hlen hfirst hok⟩

end RT
